import Mathlib

/-!
Verification of the Content-Automation-Bot repository.

The definitions below are a shallow embedding of the Python sources
(src/content_automation_bot.py, src/main.py, src/module/summarize_video.py).
External effects (HTTP fetches, caption API calls, the file system and the
Whisper model) are represented by explicit oracles and traces so that the
control flow of the embedded functions matches the source line by line.
-/

/-- Python default whitespace for str.strip: space, tab, newline, carriage
return, vertical tab, form feed. -/
def isPySpace (c : Char) : Bool :=
  c == ' ' || c == '\t' || c == '\n' || c == '\r' || c == '\x0b' || c == '\x0c'

/-- Character-list version of Python str.strip: drop whitespace from both
ends. -/
def stripChars (l : List Char) : List Char :=
  List.rdropWhile isPySpace (List.dropWhile isPySpace l)

/-- Python str.strip on strings. -/
def pyStrip (s : String) : String :=
  String.mk (stripChars s.data)

/-- Bool test that pat occurs at the front of s. -/
def charsStartWith : List Char → List Char → Bool
  | [], _ => true
  | _ :: _, [] => false
  | a :: as, b :: bs => a == b && charsStartWith as bs

/-- Bool test that pat occurs somewhere inside s (Python needle in hay). -/
def charsContain (pat : List Char) : List Char → Bool
  | [] => charsStartWith pat []
  | c :: cs => charsStartWith pat (c :: cs) || charsContain pat cs

/-- Python substring membership needle in hay. -/
def strContains (hay needle : String) : Bool :=
  charsContain needle.data hay.data

/-- Python str.lower (ASCII case folding, which covers every keyword the
source compares against). -/
def lowerStr (s : String) : String :=
  String.mk (s.data.map Char.toLower)

/-! ## ID ledger files (content_automation_bot.py lines 92-113)

A ledger file is modelled as its list of lines, each line without the
trailing newline character. -/

/-- Embeds load_ids_from_file: reads every line, strips it, and collects the
results into a set. The Python set is modelled as the dedup of the list of
stripped lines; the set's elements are exactly the members of this list. -/
def load_ids_from_file (file : List String) : List String :=
  (file.map pyStrip).dedup

/-- Embeds save_id_to_file: appends one line holding the id. -/
def save_id_to_file (itemId : String) (file : List String) : List String :=
  file ++ [itemId]

/-- Embeds remove_id_from_file: loads the id set, and only when the id is
present rewrites the whole file with one line per remaining id; otherwise
the file is not written at all. -/
def remove_id_from_file (itemId : String) (file : List String) : List String :=
  let ids := load_ids_from_file file
  if itemId ∈ ids then ids.erase itemId else file

/-! ## Transcript retrieval (content_automation_bot.py lines 149-223) -/

/-- Outcome of one iteration of the retry loop in
get_youtube_transcript_improved_v2: either a transcript was produced (the
joined caption text) or an exception with the given message was caught. -/
inductive AttemptResult where
  | ok (text : String)
  | err (msg : String)
deriving DecidableEq

/-- Keywords of line 216-219: an error message containing any of these is a
permanent condition and stops the retry loop. -/
def permanentKeywords : List String :=
  ["disabled", "not available", "no transcript", "private", "unavailable",
   "not found"]

/-- Embeds the non-retriable check of lines 214-221: the caught message is
lowercased and scanned for the permanent keywords. -/
def isPermanentError (msg : String) : Bool :=
  permanentKeywords.any (fun kw => strContains (lowerStr msg) kw)

/-- Retry loop of get_youtube_transcript_improved_v2 (lines 157-221): i is
the index of the next attempt, the second argument the number of attempts
still allowed. Returns the transcript (if any) together with the number of
attempts that were executed. -/
def getTranscriptV2Aux (attempts : Nat → AttemptResult) : Nat → Nat → Option String × Nat
  | i, 0 => (none, i)
  | i, remaining + 1 =>
    match attempts i with
    | .ok t => (some t, i + 1)
    | .err m =>
      if isPermanentError m then (none, i + 1)
      else getTranscriptV2Aux attempts (i + 1) remaining

/-- Embeds get_youtube_transcript_improved_v2: runs up to maxRetries
attempts, stopping early on success or on a permanent error message. -/
def get_youtube_transcript_improved_v2 (attempts : Nat → AttemptResult)
    (maxRetries : Nat) : Option String × Nat :=
  getTranscriptV2Aux attempts 0 maxRetries

/-- Embeds the module constant of content_automation_bot.py line 32: Whisper
is unconditionally disabled in this file. -/
def WHISPER_AVAILABLE : Bool := false

/-- Oracles feeding the full fallback resolver: the caption attempt
outcomes, and the audio file each downloader would produce (none when the
download raises or yields nothing). -/
structure FallbackEnv where
  attempts : Nat → AttemptResult
  ytdlpAudio : Option String
  pytubeAudio : Option String

/-- Observable outcome of one invocation of the fallback resolver: the
returned transcript, the number of caption attempts executed, whether
control reached the audio-fallback section (lines 346-376), how many audio
files were downloaded, how many Whisper transcriptions ran, and the
temporary audio files still on disk when the resolver returns. -/
structure FallbackResult where
  transcript : Option String
  captionAttempts : Nat
  reachedAudioStage : Bool
  audioFilesDownloaded : Nat
  whisperTranscriptions : Nat
  tempFilesLeft : List String
deriving DecidableEq

/-- Embeds transcribe_with_whisper of content_automation_bot.py lines
322-331: Whisper is disabled, so it only deletes the audio file (when it
exists) and returns None; no transcription ever runs. -/
def transcribe_with_whisper (audioFile : String) (files : List String) :
    Option String × List String :=
  (none, files.filter (fun f => f != audioFile))

/-- Embeds get_youtube_transcript_with_fallback (lines 334-377): captions
first; on failure the audio-fallback section is entered, which returns
immediately because WHISPER_AVAILABLE is false. The branch guarded by
WHISPER_AVAILABLE mirrors lines 352-374 (yt-dlp, then pytube, then
transcribe_with_whisper, which always yields None). -/
def get_youtube_transcript_with_fallback (env : FallbackEnv)
    (maxRetries : Nat) : FallbackResult :=
  match get_youtube_transcript_improved_v2 env.attempts maxRetries with
  | (some t, n) => ⟨some t, n, false, 0, 0, []⟩
  | (none, n) =>
    if WHISPER_AVAILABLE then
      match env.ytdlpAudio, env.pytubeAudio with
      | some f, _ =>
        let tr := transcribe_with_whisper f [f]
        ⟨tr.1, n, true, 1, 0, tr.2⟩
      | none, some f =>
        let tr := transcribe_with_whisper f [f]
        ⟨tr.1, n, true, 1, 0, tr.2⟩
      | none, none => ⟨none, n, true, 0, 0, []⟩
    else ⟨none, n, true, 0, 0, []⟩

/-! ## Audio fallback of the earlier drafts (src/main.py lines 63-93 and
src/module/summarize_video.py lines 313-322) -/

/-- Oracles for one invocation of get_youtube_transcript in src/main.py:
the caption fetch result (none when it raises), the downloaded audio file
(none when stream selection or download raises, in which case no file was
created), and the Whisper transcription result (none when model loading or
transcription raises). -/
structure PlanBEnv where
  captions : Option String
  audioDownload : Option String
  whisperResult : Option String
deriving DecidableEq

/-- Embeds get_youtube_transcript of src/main.py lines 63-93. Returns the
transcript together with the temporary audio files still on disk when the
function returns. os.remove(audio_file) runs only after a successful
model.transcribe, so a transcription exception is caught by the except
clause with the file still present. -/
def main_get_youtube_transcript (whisperInstalled : Bool) (env : PlanBEnv) :
    Option String × List String :=
  match env.captions with
  | some t => (some t, [])
  | none =>
    if !whisperInstalled then (none, [])
    else
      match env.audioDownload with
      | none => (none, [])
      | some f =>
        match env.whisperResult with
        | some text => (some text, [])
        | none => (none, [f])

/-- Oracles for generate_transcript_with_whisper in
src/module/summarize_video.py: the downloaded audio file inside the
temporary directory (none when yt-dlp raises) and the Whisper result (none
when transcription raises or produces no text). -/
structure WhisperPlanBEnv where
  download : Option String
  transcription : Option String
deriving DecidableEq

/-- Embeds generate_transcript_with_whisper of
src/module/summarize_video.py lines 313-322: every step runs inside a
TemporaryDirectory context manager, so the directory and the audio file in
it are deleted on every exit path; the returned list of leftover temporary
files is therefore empty in every branch. -/
def generate_transcript_with_whisper (env : WhisperPlanBEnv) :
    (Option String × Option String) × List String :=
  match env.download with
  | none => ((none, some "yt-dlp 下載音訊失敗"), [])
  | some _ =>
    match env.transcription with
    | none => ((none, some "Whisper 未能產生有效的逐字稿。"), [])
    | some t => ((some t, none), [])

/-! ## Summarizer (content_automation_bot.py lines 423-454) -/

/-- Fixed message returned when no usable API key is configured (line 427). -/
def LLM_NOT_CONFIGURED_MSG : String :=
  "摘要功能未設定：請在 config.json 中提供有效的 LLM_API_KEY。"

/-- Placeholder marker searched for inside the configured key (line 426). -/
def PLACEHOLDER_MARKER : String := "請在這裡"

/-- Message returned when the google-generativeai import fails (line 432). -/
def LLM_IMPORT_ERROR_MSG : String :=
  "錯誤：`google-generativeai` 函式庫未安裝。請執行 `pip install -r requirements.txt`。"

/-- Message returned on an empty Gemini response (line 450). -/
def LLM_EMPTY_RESPONSE_MSG : String :=
  "無法從 Gemini 獲取摘要，可能因為內容安全設定或 API 問題。"

/-- Outcome of the Gemini call once it is attempted. -/
inductive LlmCallOutcome where
  | text (t : String)
  | empty
  | raised (e : String)
deriving DecidableEq

/-- External conditions for one get_summary_from_llm invocation: whether
the google-generativeai import succeeds and what the API call does. -/
structure LlmEnv where
  importOk : Bool
  apiOutcome : LlmCallOutcome

/-- Embeds get_summary_from_llm (lines 423-454). The second component
counts how many Gemini API calls were issued: the not-configured and
import-error branches return before any call. config.get can yield a
missing key, so the key is an Option; Python truthiness makes the empty
string equivalent to a missing key. -/
def get_summary_from_llm (content : String) (apiKey : Option String)
    (env : LlmEnv) : String × Nat :=
  match apiKey with
  | none => (LLM_NOT_CONFIGURED_MSG, 0)
  | some key =>
    if key == "" then (LLM_NOT_CONFIGURED_MSG, 0)
    else if strContains key PLACEHOLDER_MARKER then (LLM_NOT_CONFIGURED_MSG, 0)
    else if !env.importOk then (LLM_IMPORT_ERROR_MSG, 0)
    else
      match env.apiOutcome with
      | .text t => (t, 1)
      | .empty => (LLM_EMPTY_RESPONSE_MSG, 1)
      | .raised e => ("呼叫 Gemini API 失敗: " ++ e, 1)

/-! ## CLI argument validation (content_automation_bot.py lines 667-678) -/

/-- Python truthiness of an argparse int option: None and 0 are falsy. -/
def truthyInt : Option Int → Bool
  | none => false
  | some n => !(n == 0)

/-- Embeds the validation block of main (lines 675-678): parser.error exits
the process with status 2 before any processing; some 2 models that exit,
none means validation passed and the run proceeds. -/
def parse_args_check (year month date : Option Int) : Option Nat :=
  if truthyInt date && !(truthyInt year && truthyInt month) then some 2
  else if (truthyInt year && !truthyInt month) || (!truthyInt year && truthyInt month) then some 2
  else none

/-! ## Date filtering (content_automation_bot.py lines 531-568 and 630-639) -/

/-- A UTC timestamp as the source builds them with datetime(..., tzinfo=utc). -/
structure UtcTime where
  year : Nat
  month : Nat
  day : Nat
  hour : Nat
  minute : Nat
  second : Nat
deriving DecidableEq

/-- Chronological key: for in-range fields (month 1-12, day 1-31, hour
0-23, minute and second 0-59) this is strictly monotone in chronological
order, so comparing keys models comparing datetimes. -/
def UtcTime.key (t : UtcTime) : Nat :=
  ((((t.year * 13 + t.month) * 32 + t.day) * 24 + t.hour) * 60 + t.minute) * 60 + t.second

/-- Gregorian month lengths, as Python's datetime module uses them. -/
def daysInMonth (y m : Nat) : Nat :=
  if m == 2 then
    (if (y % 4 == 0 && y % 100 != 0) || y % 400 == 0 then 29 else 28)
  else if m == 4 || m == 6 || m == 9 || m == 11 then 30 else 31

/-- Adding timedelta(days=1) to a midnight-anchored datetime. -/
def addOneDay (t : UtcTime) : UtcTime :=
  if t.day < daysInMonth t.year t.month then { t with day := t.day + 1 }
  else if t.month < 12 then { t with month := t.month + 1, day := 1 }
  else { t with year := t.year + 1, month := 1, day := 1 }

/-- Python truthiness of an optional natural (the date parameter at line
532 is tested with if date so 0 counts as absent). -/
def truthyNat : Option Nat → Bool
  | none => false
  | some n => !(n == 0)

/-- Embeds the publishedAfter/publishedBefore computation of
check_youtube_channel lines 531-564: a day filter gives that UTC day and
the next midnight, otherwise the window runs from the first of the month to
the first of the next month (with December rolling the year). -/
def published_window (year month : Nat) (date : Option Nat) : UtcTime × UtcTime :=
  if truthyNat date then
    (⟨year, month, date.getD 1, 0, 0, 0⟩, addOneDay ⟨year, month, date.getD 1, 0, 0, 0⟩)
  else
    (⟨year, month, 1, 0, 0, 0⟩,
     if month == 12 then ⟨year + 1, 1, 1, 0, 0, 0⟩ else ⟨year, month + 1, 1, 0, 0, 0⟩)

/-- Start-inclusive, end-exclusive membership in a computed window, the
[start-of-period, start-of-next-period) semantics the checker requests from
the search API. -/
def inWindow (w : UtcTime × UtcTime) (t : UtcTime) : Prop :=
  w.1.key ≤ t.key ∧ t.key < w.2.key

instance (w : UtcTime × UtcTime) (t : UtcTime) : Decidable (inWindow w t) := by
  unfold inWindow; infer_instance

/-- Embeds the per-entry date filter of check_rss_feed lines 630-639: with
an active year/month filter an entry is kept only when its parsed publish
time exists and matches the year and month (and the day, when one was
given); without a filter every entry is kept. -/
def rss_keep_entry (year month date : Option Nat) (published : Option UtcTime) : Bool :=
  if truthyNat year && truthyNat month then
    match published with
    | some t =>
      if !(t.year == year.getD 0 && t.month == month.getD 0) then false
      else if truthyNat date && !(t.day == date.getD 0) then false
      else true
    | none => false
  else true

/-! ## RSS source checker (content_automation_bot.py lines 611-662) -/

/-- One feed entry: its optional id (entry.get falls back to the link), its
link, and its parsed publish time when the feed provides one. -/
structure RssEntry where
  entryId : Option String
  link : String
  published : Option UtcTime
deriving DecidableEq

/-- Observable behaviour of one check_rss_feed invocation: the ids it
yielded to the orchestrator, the article URLs it fetched with
get_article_text, and the ids it appended to the failed ledger. -/
structure RssOutcome where
  yielded : List String
  fetchedUrls : List String
  failedSaved : List String
deriving DecidableEq

/-- One iteration of the entry loop (lines 625-659): already-processed ids
are skipped before anything else, then the date filter runs, and only then
is the article body fetched; a fetch returning text yields the item while a
failed fetch records the id as failed. -/
def rss_step (processedIds : List String) (year month date : Option Nat)
    (fetch : String → Option String) (acc : RssOutcome) (e : RssEntry) : RssOutcome :=
  let itemId := e.entryId.getD e.link
  if itemId ∈ processedIds then acc
  else if !(rss_keep_entry year month date e.published) then acc
  else
    match fetch e.link with
    | some _ =>
      { acc with yielded := acc.yielded ++ [itemId],
                 fetchedUrls := acc.fetchedUrls ++ [e.link] }
    | none =>
      { acc with fetchedUrls := acc.fetchedUrls ++ [e.link],
                 failedSaved := acc.failedSaved ++ [itemId] }

/-- Embeds check_rss_feed as the fold of rss_step over the feed entries,
with fetch standing for get_article_text. -/
def check_rss_feed (entries : List RssEntry) (processedIds : List String)
    (year month date : Option Nat) (fetch : String → Option String) : RssOutcome :=
  entries.foldl (rss_step processedIds year month date fetch) ⟨[], [], []⟩

/-! ## Ledger evolution over one orchestrator run
(content_automation_bot.py lines 505-514, 580-605, 625-659, 684-705) -/

/-- On-disk ledger state: the processed file and the failed file, each as
its list of id lines (set membership is list membership). -/
structure Ledger where
  processed : List String
  failed : List String
deriving DecidableEq

/-- One candidate item reaching a checker, reduced to its id and whether
the resolver (and then the whole summarize/broadcast/persist sequence)
succeeded for it. The skip test uses processed0, the in-memory set loaded
once at startup (line 684), which is never updated during the run. On
success process_item appends the id to the processed file and removes it
from the failed file (lines 512-513); on resolver failure the checker
appends the id to the failed file (lines 601, 655). -/
def ledger_step (processed0 : List String) (st : Ledger) (ev : String × Bool) : Ledger :=
  if ev.1 ∈ processed0 then st
  else if ev.2 then
    { processed := st.processed ++ [ev.1],
      failed := st.failed.filter (fun x => x != ev.1) }
  else
    { processed := st.processed, failed := st.failed ++ [ev.1] }

/-- A complete run of the orchestrator over its candidate items, starting
from the ledger files p0 and f0 that were also loaded into memory. -/
def run_ledger (p0 f0 : List String) (events : List (String × Bool)) : Ledger :=
  events.foldl (ledger_step p0) ⟨p0, f0⟩

/-- The invariant claimed for the ledger: no id lies in both files. -/
def ledger_disjoint (st : Ledger) : Bool :=
  st.processed.all (fun x => !(st.failed.contains x))

/-! ## Exception flow of the orchestrator loop
(content_automation_bot.py lines 665-707) -/

/-- One item as the orchestrator sees it: its id and, when writing its
markdown artifact or its ledger entries raises an OSError, that error.
Summarization and broadcasting never raise (get_summary_from_llm and
broadcast_line_message catch all their exceptions internally and return or
log), so only the persistence steps of process_item can throw. -/
structure OrchItem where
  itemId : String
  persistError : Option String
deriving DecidableEq

/-- One configured source: whether it is enabled, after how many yielded
items its checker raises internally (none when it never raises), and the
resolved items it would yield. -/
structure OrchSource where
  enabled : Bool
  checkerErrorAfter : Option Nat
  items : List OrchItem
deriving DecidableEq

/-- Items a checker actually yields: an internal exception is caught by the
try/except wrapping the whole generator body (lines 607-608, 661-662), so
the generator simply ends after the items already yielded. -/
def checker_yield (s : OrchSource) : List OrchItem :=
  match s.checkerErrorAfter with
  | some k => s.items.take k
  | none => s.items

/-- Embeds process_item (lines 505-514) at the granularity of exception
flow: main calls it with no surrounding try/except, so an error in the
persistence steps propagates to the caller. -/
def process_item (it : OrchItem) : Except String String :=
  match it.persistError with
  | some e => Except.error e
  | none => Except.ok it.itemId

/-- The inner item loop of main (lines 702-705): items are processed in
order and the first propagated exception aborts everything. -/
def run_items (acc : List String) : List OrchItem → Except String (List String)
  | [] => Except.ok acc
  | it :: rest =>
    match process_item it with
    | Except.error e => Except.error e
    | Except.ok pid => run_items (acc ++ [pid]) rest

/-- The outer source loop of main (lines 689-705): disabled sources are
skipped, each enabled source's checker is drained, and an exception raised
while processing an item propagates out of the loop. -/
def run_sources (acc : List String) : List OrchSource → Except String (List String)
  | [] => Except.ok acc
  | s :: rest =>
    if s.enabled then
      match run_items acc (checker_yield s) with
      | Except.error e => Except.error e
      | Except.ok acc2 => run_sources acc2 rest
    else run_sources acc rest

/-- A complete invocation of main's source/item loops, returning either the
ids processed in order or the first uncaught exception. -/
def run_main (sources : List OrchSource) : Except String (List String) :=
  run_sources [] sources

/-- The ids main would process if no exception ever escaped an item. -/
def expected_ids : List OrchSource → List String
  | [] => []
  | s :: rest =>
    (if s.enabled then (checker_yield s).map OrchItem.itemId else []) ++ expected_ids rest

/-! ## Helper lemmas -/

/-- A list whose leading whitespace is already gone still has none after
trailing whitespace is removed. -/
theorem dropWhile_rdropWhile_fix {α : Type} {p : α → Bool} {m : List α}
    (h : List.dropWhile p m = m) :
    List.dropWhile p (List.rdropWhile p m) = List.rdropWhile p m := by
  rcases hB : List.rdropWhile p m with _ | ⟨a, B'⟩
  · simp
  · have hpre : List.rdropWhile p m <+: m := List.rdropWhile_prefix p m
    rw [hB] at hpre
    obtain ⟨t, ht⟩ := hpre
    rw [← ht, List.cons_append, List.dropWhile_cons] at h
    by_cases hpa : p a
    · rw [if_pos hpa] at h
      have hlen := congrArg List.length h
      have hle := (List.dropWhile_sublist (l := B' ++ t) p).length_le
      simp only [List.length_cons] at hlen
      omega
    · rw [List.dropWhile_cons, if_neg hpa]

/-- Python str.strip is idempotent on character lists. -/
theorem stripChars_idem (l : List Char) : stripChars (stripChars l) = stripChars l := by
  unfold stripChars
  rw [dropWhile_rdropWhile_fix (List.dropWhile_idempotent isPySpace l),
    List.rdropWhile_idempotent]

/-- Python str.strip is idempotent on strings. -/
theorem pyStrip_idem (s : String) : pyStrip (pyStrip s) = pyStrip s := by
  show String.mk (stripChars (stripChars s.data)) = String.mk (stripChars s.data)
  rw [stripChars_idem]

/-- Every id the ledger loader returns is already stripped. -/
theorem load_ids_strip_fixed {file : List String} {x : String}
    (hx : x ∈ load_ids_from_file file) : pyStrip x = x := by
  unfold load_ids_from_file at hx
  rw [List.mem_dedup] at hx
  obtain ⟨y, _, rfl⟩ := List.mem_map.mp hx
  exact pyStrip_idem y

/-- The loaded id list has no duplicates. -/
theorem load_ids_nodup (file : List String) : (load_ids_from_file file).Nodup :=
  List.nodup_dedup _

/-- C10: remove_id_from_file leaves the stored id set equal to the previous
set minus the removed id, and when the id is absent the file is returned
byte-for-byte unchanged (no rewrite happens). -/
theorem C10_remove_id_semantics (itemId : String) (file : List String) :
    load_ids_from_file (remove_id_from_file itemId file)
      = (load_ids_from_file file).erase itemId
    ∧ (itemId ∉ load_ids_from_file file → remove_id_from_file itemId file = file) := by
  have key : ∀ l : List String, (∀ x ∈ l, pyStrip x = id x) → l.Nodup →
      load_ids_from_file l = l := by
    intro l h hn
    unfold load_ids_from_file
    rw [List.map_congr_left h, List.map_id]
    exact List.dedup_eq_self.mpr hn
  constructor
  · show load_ids_from_file
        (if itemId ∈ load_ids_from_file file
         then (load_ids_from_file file).erase itemId else file)
      = (load_ids_from_file file).erase itemId
    by_cases hmem : itemId ∈ load_ids_from_file file
    · rw [if_pos hmem]
      exact key _ (fun x hx => load_ids_strip_fixed (List.mem_of_mem_erase hx))
        ((load_ids_nodup file).erase itemId)
    · rw [if_neg hmem, List.erase_of_not_mem hmem]
  · intro hmem
    show (if itemId ∈ load_ids_from_file file
          then (load_ids_from_file file).erase itemId else file) = file
    rw [if_neg hmem]

/-- C10 witness: a file where the id is present (with surrounding blanks
and a duplicate line) and one where it is absent. -/
theorem C10_witness :
    load_ids_from_file (remove_id_from_file "b" ["a", " b ", "a"])
        = (load_ids_from_file ["a", " b ", "a"]).erase "b"
    ∧ remove_id_from_file "c" ["a"] = ["a"] :=
  ⟨(C10_remove_id_semantics "b" ["a", " b ", "a"]).1,
   (C10_remove_id_semantics "c" ["a"]).2 (by decide)⟩

/-- When the first permanent failure happens at attempt index k (attempts
before it failing non-permanently), the retry loop executes exactly k + 1
attempts and returns no transcript. -/
theorem v2Aux_stop (attempts : Nat → AttemptResult) (msg : String)
    (hperm : isPermanentError msg = true) :
    ∀ (k i remaining : Nat), k < remaining →
      (∀ j, j < k → ∃ m, attempts (i + j) = .err m ∧ isPermanentError m = false) →
      attempts (i + k) = .err msg →
      getTranscriptV2Aux attempts i remaining = (none, i + k + 1) := by
  intro k
  induction k with
  | zero =>
    intro i remaining hlt hbefore hk
    cases remaining with
    | zero => omega
    | succ r =>
      rw [Nat.add_zero] at hk
      simp only [getTranscriptV2Aux, hk, hperm, if_true]
  | succ k ih =>
    intro i remaining hlt hbefore hk
    cases remaining with
    | zero => omega
    | succ r =>
      obtain ⟨m, hm, hmperm⟩ := hbefore 0 (Nat.succ_pos k)
      rw [Nat.add_zero] at hm
      simp only [getTranscriptV2Aux, hm, hmperm, Bool.false_eq_true, if_false]
      have harith : i + 1 + k = i + (k + 1) := by omega
      have := ih (i + 1) r (by omega)
        (fun j hj => by
          obtain ⟨m', hm', hp'⟩ := hbefore (j + 1) (by omega)
          refine ⟨m', ?_, hp'⟩
          rw [← hm']
          congr 1
          omega)
        (by rw [harith, hk])
      rw [this, harith]

/-- C2: an attempt of the caption retry loop whose error message holds a
permanent-condition keyword stops the loop right after that attempt (no
further attempts up to maxRetries), the loop yields no transcript, and the
resolver falls through past the caption stage into the audio-fallback
section. -/
theorem C2_permanent_error_stops_retries (env : FallbackEnv)
    (maxRetries k : Nat) (msg : String)
    (hlt : k < maxRetries)
    (hbefore : ∀ j, j < k → ∃ m, env.attempts j = .err m ∧ isPermanentError m = false)
    (hk : env.attempts k = .err msg)
    (hperm : isPermanentError msg = true) :
    get_youtube_transcript_improved_v2 env.attempts maxRetries = (none, k + 1)
    ∧ (get_youtube_transcript_with_fallback env maxRetries).captionAttempts = k + 1
    ∧ (get_youtube_transcript_with_fallback env maxRetries).reachedAudioStage = true
    ∧ (get_youtube_transcript_with_fallback env maxRetries).transcript = none := by
  have hv2 : get_youtube_transcript_improved_v2 env.attempts maxRetries = (none, k + 1) := by
    have := v2Aux_stop env.attempts msg hperm k 0 maxRetries hlt
      (by simpa using hbefore) (by simpa using hk)
    simpa [get_youtube_transcript_improved_v2] using this
  refine ⟨hv2, ?_, ?_, ?_⟩ <;>
    simp [get_youtube_transcript_with_fallback, hv2, WHISPER_AVAILABLE]

/-- C2 witness: a first attempt raising a caption-disabled error under
maxRetries = 3 executes exactly one attempt. -/
theorem C2_witness :
    get_youtube_transcript_improved_v2
        (FallbackEnv.mk (fun _ => .err "TranscriptsDisabled: subtitles are disabled") none none).attempts 3
      = (none, 0 + 1)
    ∧ (get_youtube_transcript_with_fallback
        ⟨fun _ => .err "TranscriptsDisabled: subtitles are disabled", none, none⟩ 3).captionAttempts = 0 + 1
    ∧ (get_youtube_transcript_with_fallback
        ⟨fun _ => .err "TranscriptsDisabled: subtitles are disabled", none, none⟩ 3).reachedAudioStage = true
    ∧ (get_youtube_transcript_with_fallback
        ⟨fun _ => .err "TranscriptsDisabled: subtitles are disabled", none, none⟩ 3).transcript = none :=
  C2_permanent_error_stops_retries
    ⟨fun _ => .err "TranscriptsDisabled: subtitles are disabled", none, none⟩ 3 0
    "TranscriptsDisabled: subtitles are disabled"
    (by omega) (fun j hj => absurd hj (by omega)) rfl (by decide)

/-- C4 counterexample: every caption path fails (three transient errors),
yet the resolver returns with zero audio downloads and zero speech-to-text
runs, even though the yt-dlp oracle had an audio file to offer, because
WHISPER_AVAILABLE is hardcoded false. -/
theorem C4_counterexample :
    (get_youtube_transcript_with_fallback
        ⟨fun _ => .err "HTTP Error 429: Too Many Requests", some "temp_audio/vid.m4a", none⟩ 3).transcript = none
    ∧ (get_youtube_transcript_with_fallback
        ⟨fun _ => .err "HTTP Error 429: Too Many Requests", some "temp_audio/vid.m4a", none⟩ 3).audioFilesDownloaded = 0
    ∧ (get_youtube_transcript_with_fallback
        ⟨fun _ => .err "HTTP Error 429: Too Many Requests", some "temp_audio/vid.m4a", none⟩ 3).whisperTranscriptions = 0 := by
  decide

/-- C4 amended: when every caption path fails the resolver does reach the
audio-fallback section, but because WHISPER_AVAILABLE is statically false
it returns None immediately, downloading no audio and running no
speech-to-text, and leaving no temporary files. -/
theorem C4_amended_audio_stage_disabled (env : FallbackEnv) (maxRetries : Nat)
    (h : (get_youtube_transcript_improved_v2 env.attempts maxRetries).1 = none) :
    (get_youtube_transcript_with_fallback env maxRetries).reachedAudioStage = true
    ∧ (get_youtube_transcript_with_fallback env maxRetries).audioFilesDownloaded = 0
    ∧ (get_youtube_transcript_with_fallback env maxRetries).whisperTranscriptions = 0
    ∧ (get_youtube_transcript_with_fallback env maxRetries).transcript = none
    ∧ (get_youtube_transcript_with_fallback env maxRetries).tempFilesLeft = [] := by
  rcases hv2 : get_youtube_transcript_improved_v2 env.attempts maxRetries with ⟨o, n⟩
  have ho : o = none := by rw [hv2] at h; exact h
  subst ho
  refine ⟨?_, ?_, ?_, ?_, ?_⟩ <;>
    simp [get_youtube_transcript_with_fallback, hv2, WHISPER_AVAILABLE]

/-- C4 witness: two transient caption failures exhaust maxRetries = 2 and
the resolver returns without any audio download. -/
theorem C4_witness :
    (get_youtube_transcript_with_fallback
        ⟨fun _ => .err "connection timed out", none, some "temp_audio/w.mp4"⟩ 2).reachedAudioStage = true
    ∧ (get_youtube_transcript_with_fallback
        ⟨fun _ => .err "connection timed out", none, some "temp_audio/w.mp4"⟩ 2).audioFilesDownloaded = 0
    ∧ (get_youtube_transcript_with_fallback
        ⟨fun _ => .err "connection timed out", none, some "temp_audio/w.mp4"⟩ 2).whisperTranscriptions = 0
    ∧ (get_youtube_transcript_with_fallback
        ⟨fun _ => .err "connection timed out", none, some "temp_audio/w.mp4"⟩ 2).transcript = none
    ∧ (get_youtube_transcript_with_fallback
        ⟨fun _ => .err "connection timed out", none, some "temp_audio/w.mp4"⟩ 2).tempFilesLeft = [] :=
  C4_amended_audio_stage_disabled
    ⟨fun _ => .err "connection timed out", none, some "temp_audio/w.mp4"⟩ 2 (by decide)

/-- C5 counterexample: in src/main.py, with Whisper installed, captions
raising, the audio downloaded, and model.transcribe raising, the resolver
returns None with the downloaded audio file still on disk: cleanup is
skipped on the transcription-exception path. -/
theorem C5_counterexample :
    main_get_youtube_transcript true ⟨none, some "temp_audio/vid.mp4", none⟩
      = (none, ["temp_audio/vid.mp4"])
    ∧ ["temp_audio/vid.mp4"] ≠ ([] : List String) := by
  decide

/-- C5 amended: temporary audio files are removed on every exit path in
content_automation_bot.py's transcribe_with_whisper and in
module/summarize_video.py's generate_transcript_with_whisper, and in
src/main.py's get_youtube_transcript on every path on which Whisper
transcription does not raise; only main.py's transcription-exception path
leaves the audio file behind. -/
theorem C5_amended_cleanup (audioFile : String) (files : List String)
    (genv : WhisperPlanBEnv) (whisperInstalled : Bool) (penv : PlanBEnv)
    (hok : penv.whisperResult ≠ none) :
    audioFile ∉ (transcribe_with_whisper audioFile files).2
    ∧ (generate_transcript_with_whisper genv).2 = []
    ∧ (main_get_youtube_transcript whisperInstalled penv).2 = [] := by
  refine ⟨?_, ?_, ?_⟩
  · intro hmem
    have := (List.mem_filter.mp hmem).2
    simp at this
  · unfold generate_transcript_with_whisper
    rcases genv.download with _ | f
    · rfl
    · rcases genv.transcription with _ | t <;> rfl
  · unfold main_get_youtube_transcript
    rcases penv with ⟨cap, dl, wr⟩
    rcases cap with _ | t
    · rcases whisperInstalled with _ | _
      · rfl
      · rcases dl with _ | f
        · rfl
        · rcases wr with _ | t2
          · simp at hok
          · rfl
    · rfl

/-- C5 witness: cleanup on the compliant paths at concrete inputs. -/
theorem C5_witness :
    "temp_audio/a.m4a" ∉ (transcribe_with_whisper "temp_audio/a.m4a"
        ["temp_audio/a.m4a", "temp_audio/b.m4a"]).2
    ∧ (generate_transcript_with_whisper ⟨some "x.m4a", none⟩).2 = []
    ∧ (main_get_youtube_transcript true ⟨none, some "temp_audio/c.mp4", some "text"⟩).2 = [] :=
  C5_amended_cleanup "temp_audio/a.m4a" ["temp_audio/a.m4a", "temp_audio/b.m4a"]
    ⟨some "x.m4a", none⟩ true ⟨none, some "temp_audio/c.mp4", some "text"⟩ (by decide)

/-- C8: summarizer invocations with a missing key, an empty key, or a key
holding the placeholder marker return the fixed not-configured message and
issue zero LLM API calls. -/
theorem C8_summarizer_not_configured (content : String) (apiKey : Option String)
    (env : LlmEnv)
    (h : apiKey = none ∨ apiKey = some ""
      ∨ ∃ s, apiKey = some s ∧ strContains s PLACEHOLDER_MARKER = true) :
    get_summary_from_llm content apiKey env = (LLM_NOT_CONFIGURED_MSG, 0) := by
  rcases h with rfl | rfl | ⟨s, rfl, hs⟩
  · rfl
  · rfl
  · unfold get_summary_from_llm
    rcases hempty : s == "" with _ | _
    · simp [hs]
    · simp [hs]

/-- C8 witness: a key that still holds the placeholder marker. -/
theorem C8_witness :
    get_summary_from_llm "逐字稿內容" (some "請在這裡貼上您的API金鑰")
        ⟨true, LlmCallOutcome.text "summary"⟩
      = (LLM_NOT_CONFIGURED_MSG, 0) :=
  C8_summarizer_not_configured "逐字稿內容" (some "請在這裡貼上您的API金鑰")
    ⟨true, LlmCallOutcome.text "summary"⟩
    (Or.inr (Or.inr ⟨"請在這裡貼上您的API金鑰", rfl, by decide⟩))

/-- C9 counterexample: Python truthiness makes the flag value 0 behave as
absent, so supplying both --year 2025 and --month 0 is rejected as a usage
error although the year/month pair was supplied, and supplying --date 0
alone is accepted although --date lacks --year and --month. -/
theorem C9_counterexample :
    parse_args_check (some 2025) (some 0) none = some 2
    ∧ parse_args_check none none (some 0) = none := by
  decide

/-- C9 amended: for flag values argparse passes through as nonzero
integers, the run exits with the nonzero usage status 2 exactly when --date
lacks --year or --month, or exactly one of --year and --month was supplied;
a flag value of 0 is treated as if the flag were absent. -/
theorem C9_cli_validation (y m d : Option Int)
    (hy : ∀ n, y = some n → n ≠ 0)
    (hm : ∀ n, m = some n → n ≠ 0)
    (hd : ∀ n, d = some n → n ≠ 0) :
    (parse_args_check y m d = some 2
      ↔ ((d ≠ none ∧ (y = none ∨ m = none))
         ∨ (y ≠ none ∧ m = none) ∨ (y = none ∧ m ≠ none)))
    ∧ ∀ c, parse_args_check y m d = some c → c ≠ 0 := by
  rcases y with _ | ny <;> rcases m with _ | nm <;> rcases d with _ | nd <;>
    simp_all [parse_args_check, truthyInt]

/-- C9 witness: all three flags supplied with nonzero values are accepted. -/
theorem C9_witness :
    (parse_args_check (some 2025) (some 6) (some 15) = some 2
      ↔ (((some 15 : Option Int) ≠ none
            ∧ ((some 2025 : Option Int) = none ∨ (some 6 : Option Int) = none))
         ∨ ((some 2025 : Option Int) ≠ none ∧ (some 6 : Option Int) = none)
         ∨ ((some 2025 : Option Int) = none ∧ (some 6 : Option Int) ≠ none)))
    ∧ ∀ c, parse_args_check (some 2025) (some 6) (some 15) = some c → c ≠ 0 :=
  C9_cli_validation (some 2025) (some 6) (some 15)
    (fun n h => by cases h; decide)
    (fun n h => by cases h; decide)
    (fun n h => by cases h; decide)

/-- C6: with year 2025 and month 6 the computed window excludes a publish
time of 2025-05-31T23:59Z and includes 2025-06-01T00:00Z; adding date 15
makes the window exactly 2025-06-15T00:00:00Z (inclusive) to
2025-06-16T00:00:00Z (exclusive). The RSS-side client filter agrees on the
same boundary instants. -/
theorem C6_date_filter_boundaries :
    ¬ inWindow (published_window 2025 6 none) ⟨2025, 5, 31, 23, 59, 0⟩
    ∧ inWindow (published_window 2025 6 none) ⟨2025, 6, 1, 0, 0, 0⟩
    ∧ published_window 2025 6 (some 15)
        = (⟨2025, 6, 15, 0, 0, 0⟩, ⟨2025, 6, 16, 0, 0, 0⟩)
    ∧ inWindow (published_window 2025 6 (some 15)) ⟨2025, 6, 15, 0, 0, 0⟩
    ∧ ¬ inWindow (published_window 2025 6 (some 15)) ⟨2025, 6, 16, 0, 0, 0⟩
    ∧ rss_keep_entry (some 2025) (some 6) none (some ⟨2025, 5, 31, 23, 59, 0⟩) = false
    ∧ rss_keep_entry (some 2025) (some 6) none (some ⟨2025, 6, 1, 0, 0, 0⟩) = true
    ∧ rss_keep_entry (some 2025) (some 6) (some 15) (some ⟨2025, 6, 14, 23, 59, 59⟩) = false
    ∧ rss_keep_entry (some 2025) (some 6) (some 15) (some ⟨2025, 6, 15, 0, 0, 0⟩) = true
    ∧ rss_keep_entry (some 2025) (some 6) (some 15) (some ⟨2025, 6, 16, 0, 0, 0⟩) = false := by
  decide

/-- Folding the RSS entry loop over entries whose ids are all in the
processed set changes nothing. -/
theorem rss_fold_all_processed (processedIds : List String)
    (year month date : Option Nat) (fetch : String → Option String) :
    ∀ (entries : List RssEntry) (acc : RssOutcome),
      (∀ e ∈ entries, e.entryId.getD e.link ∈ processedIds) →
      entries.foldl (rss_step processedIds year month date fetch) acc = acc := by
  intro entries
  induction entries with
  | nil => intro acc _; rfl
  | cons e rest ih =>
    intro acc h
    have he : e.entryId.getD e.link ∈ processedIds := h e (List.mem_cons_self e rest)
    have hstep : rss_step processedIds year month date fetch acc e = acc := by
      unfold rss_step
      rw [if_pos he]
    rw [List.foldl_cons, hstep]
    exact ih acc (fun e' he' => h e' (List.mem_cons_of_mem e he'))

/-- C7: when every entry of a feed has an id already in the processed set,
the RSS checker yields no item, fetches no article body, and records no
failure: the processed-id check short-circuits before the article resolver
runs. -/
theorem C7_rss_all_processed_no_fetch (entries : List RssEntry)
    (processedIds : List String) (year month date : Option Nat)
    (fetch : String → Option String)
    (h : ∀ e ∈ entries, e.entryId.getD e.link ∈ processedIds) :
    check_rss_feed entries processedIds year month date fetch = ⟨[], [], []⟩ :=
  rss_fold_all_processed processedIds year month date fetch entries ⟨[], [], []⟩ h

/-- C7 witness: a one-entry feed whose id is already processed yields
nothing and fetches nothing even though the fetch oracle would succeed. -/
theorem C7_witness :
    check_rss_feed [⟨some "post-1", "https://blog.example/post-1", none⟩]
        ["post-1"] none none none (fun _ => some "article body")
      = ⟨[], [], []⟩ :=
  C7_rss_all_processed_no_fetch
    [⟨some "post-1", "https://blog.example/post-1", none⟩]
    ["post-1"] none none none (fun _ => some "article body") (by decide)

/-- The processed file only ever grows during a run: whatever it held when
a fold starts is still its prefix afterwards. -/
theorem ledger_fold_grows (p0 : List String) :
    ∀ (events : List (String × Bool)) (st : Ledger),
      st.processed <+: (events.foldl (ledger_step p0) st).processed := by
  intro events
  induction events with
  | nil => intro st; exact List.prefix_refl _
  | cons ev rest ih =>
    intro st
    refine List.IsPrefix.trans ?_ (ih (ledger_step p0 st ev))
    unfold ledger_step
    by_cases hp : ev.1 ∈ p0
    · rw [if_pos hp]
    · rw [if_neg hp]
      by_cases hb : ev.2 = true
      · rw [if_pos hb]
        exact List.prefix_append _ _
      · rw [if_neg hb]

/-- Disjointness of the two ledger files is preserved by a fold over
events whose ids are pairwise distinct, given that any event id already in
the processed file is one the run skips (it was loaded at startup). -/
theorem ledger_fold_disjoint (p0 : List String) :
    ∀ (events : List (String × Bool)) (st : Ledger),
      (∀ x, x ∈ st.processed → x ∉ st.failed) →
      (∀ e ∈ events, e.1 ∈ st.processed → e.1 ∈ p0) →
      (events.map Prod.fst).Nodup →
      ∀ x, x ∈ (events.foldl (ledger_step p0) st).processed →
        x ∉ (events.foldl (ledger_step p0) st).failed := by
  intro events
  induction events with
  | nil => intro st hdisj _ _; exact hdisj
  | cons ev rest ih =>
    intro st hdisj hinv hnodup
    rw [List.map_cons, List.nodup_cons] at hnodup
    obtain ⟨hev_notin, hrest_nodup⟩ := hnodup
    rw [List.foldl_cons]
    apply ih
    · intro x hx
      unfold ledger_step at hx ⊢
      by_cases hp : ev.1 ∈ p0
      · rw [if_pos hp] at hx ⊢
        exact hdisj x hx
      · rw [if_neg hp] at hx ⊢
        by_cases hb : ev.2 = true
        · rw [if_pos hb] at hx ⊢
          intro hmem
          have hxf := List.mem_filter.mp hmem
          rcases List.mem_append.mp hx with hxp | hxe
          · exact hdisj x hxp hxf.1
          · have hxe' : x = ev.1 := by simpa using hxe
            subst hxe'
            simp at hxf
        · rw [if_neg hb] at hx ⊢
          intro hmem
          rcases List.mem_append.mp hmem with hf | he
          · exact hdisj x hx hf
          · have hxe : x = ev.1 := by simpa using he
            subst hxe
            exact hp (hinv ev (List.mem_cons_self _ _) hx)
    · intro e he hmem
      unfold ledger_step at hmem
      by_cases hp : ev.1 ∈ p0
      · rw [if_pos hp] at hmem
        exact hinv e (List.mem_cons_of_mem _ he) hmem
      · rw [if_neg hp] at hmem
        by_cases hb : ev.2 = true
        · rw [if_pos hb] at hmem
          rcases List.mem_append.mp hmem with hm | hm
          · exact hinv e (List.mem_cons_of_mem _ he) hm
          · have heq : e.1 = ev.1 := by simpa using hm
            exact absurd (heq ▸ List.mem_map_of_mem Prod.fst he) hev_notin
        · rw [if_neg hb] at hmem
          exact hinv e (List.mem_cons_of_mem _ he) hmem
    · exact hrest_nodup

/-- C1 counterexample: the in-memory processed set is loaded once and never
updated during a run, so a candidate id that succeeds and then fails again
later in the same run (for example the same feed listed under two sources)
ends the run recorded in both ledgers. -/
theorem C1_counterexample :
    ledger_disjoint (run_ledger [] [] [("a", true), ("a", false)]) = false := by
  decide

/-- C1 amended: provided the two ledger files are disjoint when the run
starts and no candidate id occurs more than once among the run's events,
after a complete run no id is in both the processed and the failed file,
and the processed file only grows: its old contents are still its prefix
(ids are appended on success and never removed, while failed ids are added
on resolver failure and dropped when the same id later succeeds). -/
theorem C1_ledger_invariant (p0 f0 : List String) (events : List (String × Bool))
    (hdisj : ledger_disjoint ⟨p0, f0⟩ = true)
    (hnodup : (events.map Prod.fst).Nodup) :
    ledger_disjoint (run_ledger p0 f0 events) = true
    ∧ (run_ledger p0 f0 events).processed.take p0.length = p0 := by
  have hdisj' : ∀ x, x ∈ p0 → x ∉ f0 := by
    intro x hx
    have := List.all_eq_true.mp hdisj x hx
    simpa using this
  constructor
  · unfold ledger_disjoint
    rw [List.all_eq_true]
    intro x hx
    have := ledger_fold_disjoint p0 events ⟨p0, f0⟩ hdisj'
      (fun e _ h => h) hnodup x hx
    simpa using this
  · exact (List.prefix_iff_eq_take.mp (ledger_fold_grows p0 events ⟨p0, f0⟩)).symm

/-- C1 witness: a previously failed id succeeds and a fresh id fails in the
same run, with distinct event ids and initially disjoint ledgers. -/
theorem C1_witness :
    ledger_disjoint (run_ledger ["p"] ["f"] [("f", true), ("x", false)]) = true
    ∧ (run_ledger ["p"] ["f"] [("f", true), ("x", false)]).processed.take
        (["p"] : List String).length = ["p"] :=
  C1_ledger_invariant ["p"] ["f"] [("f", true), ("x", false)] (by decide) (by decide)

/-- The item loop succeeds end to end when no item's persistence step
raises, collecting the ids in order. -/
theorem run_items_ok :
    ∀ (items : List OrchItem) (acc : List String),
      (∀ it ∈ items, it.persistError = none) →
      run_items acc items = Except.ok (acc ++ items.map OrchItem.itemId) := by
  intro items
  induction items with
  | nil => intro acc _; simp [run_items]
  | cons it rest ih =>
    intro acc h
    have hit : it.persistError = none := h it (List.mem_cons_self _ _)
    rw [run_items]
    unfold process_item
    rw [hit]
    show run_items (acc ++ [it.itemId]) rest
      = Except.ok (acc ++ List.map OrchItem.itemId (it :: rest))
    rw [ih (acc ++ [it.itemId]) (fun it' h' => h it' (List.mem_cons_of_mem _ h'))]
    simp

/-- The source loop succeeds end to end when no yielded item's persistence
step raises, whatever the enabled flags and internal checker errors are. -/
theorem run_sources_ok :
    ∀ (sources : List OrchSource) (acc : List String),
      (∀ s ∈ sources, ∀ it ∈ checker_yield s, it.persistError = none) →
      run_sources acc sources = Except.ok (acc ++ expected_ids sources) := by
  intro sources
  induction sources with
  | nil => intro acc _; simp [run_sources, expected_ids]
  | cons s rest ih =>
    intro acc h
    rw [run_sources]
    by_cases hs : s.enabled
    · rw [if_pos hs]
      rw [run_items_ok (checker_yield s) acc (h s (List.mem_cons_self _ _))]
      show run_sources (acc ++ List.map OrchItem.itemId (checker_yield s)) rest
        = Except.ok (acc ++ expected_ids (s :: rest))
      rw [ih _ (fun s' h' => h s' (List.mem_cons_of_mem _ h'))]
      simp [expected_ids, hs]
    · rw [if_neg hs]
      rw [ih _ (fun s' h' => h s' (List.mem_cons_of_mem _ h'))]
      simp [expected_ids, hs]

/-- C3 counterexample: an OSError raised while writing the markdown
artifact of the first item propagates out of main's loops (process_item is
called with no surrounding try/except), so the remaining item and the whole
second source are never processed. -/
theorem C3_counterexample :
    run_main [⟨true, none, [⟨"a", some "OSError: disk full"⟩, ⟨"b", none⟩]⟩,
              ⟨true, none, [⟨"c", none⟩]⟩]
      = Except.error "OSError: disk full" := by
  rfl

/-- C3 amended: exceptions raised inside a source checker are caught by the
checker itself and never abort the run, and summarizer and broadcaster
failures are absorbed internally; as long as no item's markdown or ledger
persistence raises, the orchestrator processes every yielded item of every
enabled source and no exception escapes the outer loop. An exception in
the persistence steps, however, does propagate and aborts the run. -/
theorem C3_orchestrator_absorbs_failures (sources : List OrchSource)
    (h : ∀ s ∈ sources, ∀ it ∈ checker_yield s, it.persistError = none) :
    run_main sources = Except.ok (expected_ids sources) := by
  unfold run_main
  rw [run_sources_ok sources [] h]
  simp

/-- C3 witness: a checker that raises internally after one item and a
disabled source do not prevent the run from completing and processing the
remaining enabled source. -/
theorem C3_witness :
    run_main [⟨true, some 1, [⟨"a", none⟩, ⟨"b", none⟩]⟩,
              ⟨false, none, [⟨"z", none⟩]⟩,
              ⟨true, none, [⟨"c", none⟩]⟩]
      = Except.ok (expected_ids [⟨true, some 1, [⟨"a", none⟩, ⟨"b", none⟩]⟩,
              ⟨false, none, [⟨"z", none⟩]⟩,
              ⟨true, none, [⟨"c", none⟩]⟩]) :=
  C3_orchestrator_absorbs_failures
    [⟨true, some 1, [⟨"a", none⟩, ⟨"b", none⟩]⟩,
     ⟨false, none, [⟨"z", none⟩]⟩,
     ⟨true, none, [⟨"c", none⟩]⟩]
    (by decide)
